import Mathlib

attribute [local semireducible] Rat.add Rat.sub Rat.mul Rat.inv Rat.ofScientific

set_option maxRecDepth 1000000

set_option maxHeartbeats 16000000

/-!
Verification of the monthly projection engine (`simulate`) and the
sustainable-spend solver (`sustainableSpendToday`, here `findSustainableSpend`)
of `src/src/App.jsx`, shallowly embedded over `ℚ`.

The only non-rational operation in the source is `Math.pow (x, 1/12)` (the
twelfth root used to convert annual rates to monthly rates).  The embedding
takes this operation as an explicit function parameter `pw : ℚ → ℚ`; every
other arithmetic step of the source is translated literally.  JavaScript
`Math.round` rounds half toward positive infinity, which is `⌊x + 1/2⌋`.
-/

namespace UT

/-- JavaScript `Math.round`: round half toward positive infinity. -/
def jround (x : ℚ) : ℤ := ⌊x + 1/2⌋

/-- Input record of `simulate` (the destructured parameter object in the
source, with the same defaults for the three fee fields). -/
structure SimParams where
  currentAge : ℚ
  retirementAge : ℚ
  horizonYears : ℚ
  startAssets : ℚ
  monthlySave : ℚ
  preAnnualGross : ℚ
  postRealAnnualGross : ℚ
  inflationAnnual : ℚ
  annualSpendToday : ℚ
  delayYears : ℚ
  feeAnnualPre : ℚ := 0
  feeAnnualPost : ℚ := 0
  fixedFeeAnnual : ℚ := 0
deriving DecidableEq

/-- Replace the spend field, as the solver's `sim = (s) => simulate({...p, annualSpendToday: s})`. -/
def setSpend (p : SimParams) (s : ℚ) : SimParams := { p with annualSpendToday := s }

/-- `const months = Math.max(1, Math.round(horizonYears * 12))`. -/
def months (p : SimParams) : ℕ := max 1 (jround (p.horizonYears * 12)).toNat

/-- `const preNet = Math.max(-0.99, preAnnualGross - feeAnnualPre)`. -/
def preNet (p : SimParams) : ℚ := max (-(99/100)) (p.preAnnualGross - p.feeAnnualPre)

/-- `const postNominal = (1 + postRealAnnualGross) * (1 + inflationAnnual) - 1`. -/
def postNominal (p : SimParams) : ℚ :=
  (1 + p.postRealAnnualGross) * (1 + p.inflationAnnual) - 1

/-- `const postNet = Math.max(-0.99, postNominal - feeAnnualPost)`. -/
def postNet (p : SimParams) : ℚ := max (-(99/100)) (postNominal p - p.feeAnnualPost)

/-- `const mPre = Math.pow(1 + preNet, 1/12) - 1`, with `pw` standing for the
twelfth root. -/
def mPre (pw : ℚ → ℚ) (p : SimParams) : ℚ := pw (1 + preNet p) - 1

/-- `const mPost = Math.pow(1 + postNet, 1/12) - 1`. -/
def mPost (pw : ℚ → ℚ) (p : SimParams) : ℚ := pw (1 + postNet p) - 1

/-- `const mInfl = Math.pow(1 + inflationAnnual, 1/12) - 1`. -/
def mInfl (pw : ℚ → ℚ) (p : SimParams) : ℚ := pw (1 + p.inflationAnnual) - 1

/-- `const mFix = Math.max(0, fixedFeeAnnual) / 12`. -/
def mFix (p : SimParams) : ℚ := max 0 p.fixedFeeAnnual / 12

/-- `const toRet = Math.max(0, Math.round((retirementAge - currentAge) * 12))`. -/
def toRet (p : SimParams) : ℕ := (jround ((p.retirementAge - p.currentAge) * 12)).toNat

/-- `const dly = Math.max(0, Math.round(delayYears * 12))`. -/
def dly (p : SimParams) : ℕ := (jround (p.delayYears * 12)).toNat

/-- Monthly rate applied in month `m`: `pre ? mPre : mPost` with `pre = m <= toRet`. -/
def rateAt (pw : ℚ → ℚ) (p : SimParams) (m : ℕ) : ℚ :=
  if m ≤ toRet p then mPre pw p else mPost pw p

/-- Contribution in month `m`: `pre && m > dly ? monthlySave : 0`. -/
def contribAt (p : SimParams) (m : ℕ) : ℚ :=
  if m ≤ toRet p ∧ dly p < m then p.monthlySave else 0

/-- Withdrawal in month `m`: with `msr = Math.max(0, m - toRet)` (truncated
subtraction on `ℕ`), `sp = msr > 0 ? (annualSpendToday / 12) * (1+mInfl)^msr : 0`. -/
def spendAt (pw : ℚ → ℚ) (p : SimParams) (m : ℕ) : ℚ :=
  if 0 < m - toRet p then p.annualSpendToday / 12 * (1 + mInfl pw p) ^ (m - toRet p) else 0

/-- An annual trajectory row `{age, nominal, real}`. -/
structure Row where
  age : ℤ
  nominal : ℚ
  real : ℚ
deriving DecidableEq

/-- Loop state: running balance, recorded depletion age, appended rows. -/
structure SimState where
  bal : ℚ
  dep : Option ℚ
  rows : List Row
deriving DecidableEq

/-- The starting row pushed before the loop:
`rows.push({age: Math.floor(currentAge), nominal: bal, real: bal})` with
`bal = Math.max(0, startAssets)`. -/
def initRow (p : SimParams) : Row :=
  ⟨⌊p.currentAge⌋, max 0 p.startAssets, max 0 p.startAssets⟩

/-- State before the first loop iteration. -/
def initState (p : SimParams) : SimState :=
  ⟨max 0 p.startAssets, none, [initRow p]⟩

/-- Pre-clamp balance update of month `m`:
`bal * (1 + r) + c - sp - mFix`. -/
def stepRaw (pw : ℚ → ℚ) (p : SimParams) (b : ℚ) (m : ℕ) : ℚ :=
  b * (1 + rateAt pw p m) + contribAt p m - spendAt pw p m - mFix p

/-- One iteration of the monthly loop.  `if (bal <= 0 && !dep) dep = age`
tests JavaScript truthiness of `dep`, which is falsy when `null` or `0`;
`if (bal < 0) bal = 0` clamps; a row is appended when `m % 12 === 0` with
deflator `Math.pow(1 + mInfl, m)`. -/
def simStep (pw : ℚ → ℚ) (p : SimParams) (st : SimState) (m : ℕ) : SimState :=
  let age : ℚ := p.currentAge + (m : ℚ) / 12
  let b1 := stepRaw pw p st.bal m
  let dep1 := if b1 ≤ 0 ∧ (st.dep = none ∨ st.dep = some 0) then some age else st.dep
  let b2 := if b1 < 0 then 0 else b1
  let rows1 :=
    if m % 12 = 0 then st.rows ++ [⟨⌊age⌋, b2, b2 / (1 + mInfl pw p) ^ m⟩] else st.rows
  ⟨b2, dep1, rows1⟩

/-- State after the loop has processed months `1 .. n`. -/
def simLoop (pw : ℚ → ℚ) (p : SimParams) : ℕ → SimState
  | 0 => initState p
  | n + 1 => simStep pw p (simLoop pw p n) (n + 1)

/-- Output record of `simulate`. -/
structure SimResult where
  rows : List Row
  endNom : ℚ
  endReal : ℚ
  depletedAge : Option ℤ
  depletedAgeExact : Option ℚ
deriving DecidableEq

/-- The projection engine `simulate`.  `endReal` is
`rows[rows.length - 1]?.real ?? bal`; `depletedAge` is
`dep ? Math.floor(dep) : null` (JavaScript truthiness again: a recorded
depletion age of exactly `0` yields `null`). -/
def simulate (pw : ℚ → ℚ) (p : SimParams) : SimResult :=
  let st := simLoop pw p (months p)
  { rows := st.rows
    endNom := st.bal
    endReal := match st.rows.getLast? with
      | some r => r.real
      | none => st.bal
    depletedAge := match st.dep with
      | some d => if d = 0 then none else some ⌊d⌋
      | none => none
    depletedAgeExact := st.dep }

/-- The solver's feasibility predicate:
`const d = t.depletedAgeExact == null ? Infinity : t.depletedAgeExact;
return d >= lifeExpectancy - tol` with `tol = 0.1`. -/
def lasts (pw : ℚ → ℚ) (p : SimParams) (le : ℚ) (s : ℚ) : Bool :=
  match (simulate pw (setSpend p s)).depletedAgeExact with
  | none => true
  | some d => decide (le - 1/10 ≤ d)

/-- The solver's zero-spend early exit test:
`zero.depletedAge && zero.depletedAge <= lifeExpectancy` (a floored depletion
age of `0` is falsy). -/
def zeroInfeasible (pw : ℚ → ℚ) (p : SimParams) (le : ℚ) : Bool :=
  match (simulate pw (setSpend p 0)).depletedAge with
  | none => false
  | some d => decide (d ≠ 0 ∧ (d : ℚ) ≤ le)

/-- The doubling loop `while (lasts(hi) && hi < max) hi *= 2` with
`max = 5e7`, written with fuel.  Started at `hi = 100000` the loop body can
run at most 9 times (after 9 doublings `hi = 51200000 ≥ 5e7`), so any fuel
of at least 10 computes the exact loop result. -/
def expSearch (pw : ℚ → ℚ) (p : SimParams) (le : ℚ) : ℕ → ℚ → ℚ
  | 0, hi => hi
  | f + 1, hi =>
    if lasts pw p le hi = true ∧ hi < 50000000 then expSearch pw p le f (hi * 2) else hi

/-- The bisection loop `for (i = 0; i < 34; i++)` on the pair `(lo, hi)`:
test the midpoint, keep it as `lo` when feasible, else as `hi`. -/
def bisect (pw : ℚ → ℚ) (p : SimParams) (le : ℚ) : ℕ → ℚ × ℚ → ℚ × ℚ
  | 0, lh => lh
  | n + 1, lh =>
    let m := (lh.1 + lh.2) / 2
    if lasts pw p le m = true then bisect pw p le n (m, lh.2) else bisect pw p le n (lh.1, m)

/-- The sustainable-spend solver (`sustainableSpendToday` in the source,
`findSustainableSpend` in the specification): zero-spend early exit, doubling
search from `hi = 100000`, `if (hi >= max) return hi`, else 34 bisection
steps from `lo = 0` and `return Math.round(lo)`. -/
def findSustainableSpend (pw : ℚ → ℚ) (p : SimParams) (le : ℚ) : ℚ :=
  if zeroInfeasible pw p le = true then 0
  else
    let hi := expSearch pw p le 64 100000
    if 50000000 ≤ hi then hi
    else ((jround (bisect pw p le 34 (0, hi)).1 : ℤ) : ℚ)

/-- Balance after the loop has processed months `1 .. n`. -/
def balAfter (pw : ℚ → ℚ) (p : SimParams) (n : ℕ) : ℚ := (simLoop pw p n).bal

/-- Pre-clamp balance computed in month `m ≥ 1`. -/
def rawAt (pw : ℚ → ℚ) (p : SimParams) (m : ℕ) : ℚ :=
  stepRaw pw p (balAfter pw p (m - 1)) m

/-- First month in `1 .. n` whose pre-clamp balance is `≤ 0`, if any. -/
def firstDepMonth (pw : ℚ → ℚ) (p : SimParams) : ℕ → Option ℕ
  | 0 => none
  | n + 1 =>
    match firstDepMonth pw p n with
    | some m => some m
    | none => if rawAt pw p (n + 1) ≤ 0 then some (n + 1) else none

/-- Identity stand-in for the twelfth root, used at concrete inputs whose
rate bases are `1` (where `Math.pow(1, 1/12) = 1` exactly). -/
def pwId : ℚ → ℚ := fun x => x

/-- Twelfth root taking `4096` to `2` (exact, since `2^12 = 4096`) and
everything else to `1`; used at concrete inputs whose rate bases are `4096`
or `1`, where the rational twelfth root is exact. -/
def pwC8 : ℚ → ℚ := fun x => if x = 4096 then 2 else 1

/-- The specification's wording of the pre-retirement net annual rate:
`preNet = max(−0.99, preGross − feePre)`. -/
def spec_preNet (p : SimParams) : ℚ := max (-(99/100)) (p.preAnnualGross - p.feeAnnualPre)

/-- The specification's wording of the nominal post-retirement gross rate:
convert `postRealAnnualGross` to nominal via `(1+real)(1+inflation) − 1`. -/
def spec_postNominal (p : SimParams) : ℚ :=
  (1 + p.postRealAnnualGross) * (1 + p.inflationAnnual) - 1

/-- The specification's wording of the post-retirement net annual rate:
subtract `feePost` from the nominal rate with the same `−0.99` floor. -/
def spec_postNet (p : SimParams) : ℚ :=
  max (-(99/100)) (spec_postNominal p - p.feeAnnualPost)

/-- The specification's wording of the withdrawal rule: spend applies only
after the retirement month, and equals `annualSpendToday / 12` inflated by
compounding monthly inflation over the months elapsed since retirement
began. -/
def spec_spendAt (pw : ℚ → ℚ) (p : SimParams) (m : ℕ) : ℚ :=
  if toRet p < m then p.annualSpendToday / 12 * (1 + mInfl pw p) ^ (m - toRet p) else 0

/-- Scenario whose feasibility threshold is 30,000,000: every doubling
candidate below the cap is feasible, the one at the cap is not. -/
def pA : SimParams :=
  { currentAge := 60, retirementAge := 60, horizonYears := 1, startAssets := 25000000,
    monthlySave := 0, preAnnualGross := 0, postRealAnnualGross := 0, inflationAnnual := 0,
    annualSpendToday := 0, delayYears := 0 }

/-- Scenario whose feasibility threshold is exactly 50,004: the final
bisection lower bound rounds up onto the infeasible threshold. -/
def pB : SimParams :=
  { currentAge := 60, retirementAge := 60, horizonYears := 1, startAssets := 41670,
    monthlySave := 0, preAnnualGross := 0, postRealAnnualGross := 0, inflationAnnual := 0,
    annualSpendToday := 0, delayYears := 0 }

/-- Scenario whose feasibility threshold is exactly 100,008 (one doubling
step occurs): round and floor of the final lower bound differ. -/
def pC : SimParams :=
  { currentAge := 60, retirementAge := 60, horizonYears := 1, startAssets := 83340,
    monthlySave := 0, preAnnualGross := 0, postRealAnnualGross := 0, inflationAnnual := 0,
    annualSpendToday := 0, delayYears := 0 }

/-- One-month pre-retirement scenario: balance 100 grows to 110 by one
contribution, but the only trajectory row is the initial point. -/
def p4 : SimParams :=
  { currentAge := 60, retirementAge := 70, horizonYears := 1/12, startAssets := 100,
    monthlySave := 10, preAnnualGross := 0, postRealAnnualGross := 0, inflationAnnual := 0,
    annualSpendToday := 0, delayYears := 0 }

/-- One-month zero-inflation scenario with a contribution: the ending
nominal and recorded real balances differ by 20. -/
def p5 : SimParams :=
  { currentAge := 60, retirementAge := 70, horizonYears := 1/12, startAssets := 200,
    monthlySave := 20, preAnnualGross := 0, postRealAnnualGross := 0, inflationAnnual := 0,
    annualSpendToday := 0, delayYears := 0 }

/-- Thirteen-month drawdown with 20% inflation: positive at the month-12
row, depleted in month 13, so the recorded real balance exceeds the final
nominal balance. -/
def p6 : SimParams :=
  { currentAge := 60, retirementAge := 60, horizonYears := 13/12, startAssets := 1000,
    monthlySave := 0, preAnnualGross := 0, postRealAnnualGross := 0, inflationAnnual := 1/5,
    annualSpendToday := 924, delayYears := 0 }

/-- Scenario depleting from zero assets in its first month. -/
def pW2a : SimParams :=
  { currentAge := 60, retirementAge := 70, horizonYears := 1, startAssets := 0,
    monthlySave := 0, preAnnualGross := 0, postRealAnnualGross := 0, inflationAnnual := 0,
    annualSpendToday := 0, delayYears := 0 }

/-- Feasibility threshold 12,000, below the initial bracket. -/
def pW2b : SimParams :=
  { currentAge := 60, retirementAge := 60, horizonYears := 1, startAssets := 10000,
    monthlySave := 0, preAnnualGross := 0, postRealAnnualGross := 0, inflationAnnual := 0,
    annualSpendToday := 0, delayYears := 0 }

/-- Feasibility threshold 24,000, below the initial bracket. -/
def pW3 : SimParams :=
  { currentAge := 60, retirementAge := 60, horizonYears := 1, startAssets := 20000,
    monthlySave := 0, preAnnualGross := 0, postRealAnnualGross := 0, inflationAnnual := 0,
    annualSpendToday := 0, delayYears := 0 }

/-- Twelve-month accumulation scenario with zero inflation. -/
def pW5 : SimParams :=
  { currentAge := 60, retirementAge := 70, horizonYears := 1, startAssets := 1000,
    monthlySave := 100, preAnnualGross := 0, postRealAnnualGross := 0, inflationAnnual := 0,
    annualSpendToday := 0, delayYears := 0 }

/-- Twelve-month scenario with 10% inflation and no spending. -/
def pW6 : SimParams :=
  { currentAge := 60, retirementAge := 60, horizonYears := 1, startAssets := 1000,
    monthlySave := 0, preAnnualGross := 0, postRealAnnualGross := 0, inflationAnnual := 1/10,
    annualSpendToday := 0, delayYears := 0 }

/-- Small one-month accumulation scenario. -/
def pW7 : SimParams :=
  { currentAge := 60, retirementAge := 70, horizonYears := 1/12, startAssets := 50,
    monthlySave := 5, preAnnualGross := 0, postRealAnnualGross := 0, inflationAnnual := 0,
    annualSpendToday := 0, delayYears := 0 }

/-- Scenario whose pre-retirement net annual rate is `4095`, so that the
rate base `4096` has the exact rational twelfth root `2`. -/
def p8 : SimParams :=
  { currentAge := 40, retirementAge := 60, horizonYears := 1, startAssets := 1000,
    monthlySave := 0, preAnnualGross := 4095, postRealAnnualGross := 0, inflationAnnual := 0,
    annualSpendToday := 0, delayYears := 0 }

/-- Scenario retiring 120 months in, with a positive spend. -/
def pW9 : SimParams :=
  { currentAge := 50, retirementAge := 60, horizonYears := 2, startAssets := 100000,
    monthlySave := 0, preAnnualGross := 0, postRealAnnualGross := 0, inflationAnnual := 0,
    annualSpendToday := 1200, delayYears := 0 }

/-- Zero-asset, zero-contribution scenario for the implicit month-one
depletion behaviour. -/
def pW10 : SimParams :=
  { currentAge := 40, retirementAge := 60, horizonYears := 1/12, startAssets := 0,
    monthlySave := 0, preAnnualGross := 0, postRealAnnualGross := 0, inflationAnnual := 0,
    annualSpendToday := 0, delayYears := 0 }

/-- Zero-asset, zero-contribution scenario at current age 0: the month-one
depletion age `1/12` floors to `0`, which is falsy in the solver's
zero-spend truthiness test. -/
def p10 : SimParams :=
  { currentAge := 0, retirementAge := 20, horizonYears := 1/12, startAssets := 0,
    monthlySave := 0, preAnnualGross := 0, postRealAnnualGross := 0, inflationAnnual := 0,
    annualSpendToday := 0, delayYears := 0 }

theorem months_pos (p : SimParams) : 1 ≤ months p := le_max_left 1 _

theorem simLoop_succ (pw : ℚ → ℚ) (p : SimParams) (n : ℕ) :
    simLoop pw p (n + 1) = simStep pw p (simLoop pw p n) (n + 1) := rfl

theorem clamp_nonneg (b : ℚ) : 0 ≤ if b < 0 then 0 else b := by
  by_cases hb : b < 0
  · simp [hb]
  · simp [hb, not_lt.mp hb]

theorem balAfter_nonneg (pw : ℚ → ℚ) (p : SimParams) (n : ℕ) : 0 ≤ balAfter pw p n := by
  cases n with
  | zero => exact le_max_left 0 _
  | succ k =>
    show (0 : ℚ) ≤ (simStep pw p (simLoop pw p k) (k + 1)).bal
    simp only [simStep]
    exact clamp_nonneg _

theorem one_add_mInfl (pw : ℚ → ℚ) (p : SimParams) :
    1 + mInfl pw p = pw (1 + p.inflationAnnual) := by
  simp [mInfl]

theorem rows_ne_nil (pw : ℚ → ℚ) (p : SimParams) (n : ℕ) : (simLoop pw p n).rows ≠ [] := by
  induction n with
  | zero => simp [simLoop, initState]
  | succ k ih =>
    show (simStep pw p (simLoop pw p k) (k + 1)).rows ≠ []
    simp only [simStep]
    split
    · simp
    · exact ih

theorem rows_nonneg (pw : ℚ → ℚ) (p : SimParams) (h : 0 < pw (1 + p.inflationAnnual))
    (n : ℕ) : ∀ r ∈ (simLoop pw p n).rows, 0 ≤ r.nominal ∧ 0 ≤ r.real := by
  induction n with
  | zero =>
    intro r hr
    simp only [simLoop, initState, List.mem_singleton] at hr
    subst hr
    exact ⟨le_max_left 0 _, le_max_left 0 _⟩
  | succ k ih =>
    intro r hr
    rw [simLoop_succ] at hr
    simp only [simStep] at hr
    have hpow : (0 : ℚ) < (1 + mInfl pw p) ^ (k + 1) := by
      rw [one_add_mInfl]; exact pow_pos h _
    split at hr
    · rcases List.mem_append.mp hr with h1 | h2
      · exact ih r h1
      · rw [List.mem_singleton] at h2
        subst h2
        exact ⟨clamp_nonneg _, div_nonneg (clamp_nonneg _) hpow.le⟩
    · exact ih r hr

theorem rows_small (pw : ℚ → ℚ) (p : SimParams) (n : ℕ) (h : n < 12) :
    (simLoop pw p n).rows = [initRow p] := by
  induction n with
  | zero => rfl
  | succ k ih =>
    rw [simLoop_succ]
    simp only [simStep]
    rw [if_neg (by omega : ¬ (k + 1) % 12 = 0)]
    exact ih (by omega)

theorem simLoop_rows_concat (pw : ℚ → ℚ) (p : SimParams) (n : ℕ) (h : (n + 1) % 12 = 0) :
    (simLoop pw p (n + 1)).rows = (simLoop pw p n).rows ++
      [⟨⌊p.currentAge + ((n + 1 : ℕ) : ℚ) / 12⌋, (simLoop pw p (n + 1)).bal,
        (simLoop pw p (n + 1)).bal / (1 + mInfl pw p) ^ (n + 1)⟩] := by
  conv_lhs => rw [simLoop_succ]
  conv_rhs => rw [simLoop_succ]
  simp only [simStep]
  rw [if_pos h]

theorem firstDepMonth_succ_none (pw : ℚ → ℚ) (p : SimParams) (n : ℕ)
    (h : firstDepMonth pw p n = none) :
    firstDepMonth pw p (n + 1) =
      if rawAt pw p (n + 1) ≤ 0 then some (n + 1) else none := by
  rw [firstDepMonth, h]

theorem firstDepMonth_succ_some (pw : ℚ → ℚ) (p : SimParams) (n m : ℕ)
    (h : firstDepMonth pw p n = some m) : firstDepMonth pw p (n + 1) = some m := by
  rw [firstDepMonth, h]

theorem firstDep_bounds (pw : ℚ → ℚ) (p : SimParams) (n m : ℕ)
    (h : firstDepMonth pw p n = some m) : 1 ≤ m ∧ m ≤ n := by
  induction n with
  | zero => simp [firstDepMonth] at h
  | succ k ih =>
    rcases hk : firstDepMonth pw p k with - | m2
    · rw [firstDepMonth_succ_none pw p k hk] at h
      split at h
      · cases h
        omega
      · cases h
    · rw [firstDepMonth_succ_some pw p k m2 hk] at h
      cases h
      have := ih hk
      omega

theorem dep_eq_firstDep (pw : ℚ → ℚ) (p : SimParams) (hA : 0 ≤ p.currentAge) (n : ℕ) :
    (simLoop pw p n).dep =
      (firstDepMonth pw p n).map (fun m => p.currentAge + (m : ℚ) / 12) := by
  induction n with
  | zero => rfl
  | succ k ih =>
    rw [simLoop_succ]
    simp only [simStep]
    rcases hk : firstDepMonth pw p k with - | m
    · have ihn : (simLoop pw p k).dep = none := by simp [ih, hk]
      rw [firstDepMonth_succ_none pw p k hk]
      by_cases hraw : rawAt pw p (k + 1) ≤ 0
      · rw [if_pos ⟨hraw, Or.inl ihn⟩, if_pos hraw]
        rfl
      · rw [if_neg (fun hc => hraw hc.1), if_neg hraw, ihn]
        rfl
    · have hb := (firstDep_bounds pw p k m hk).1
      have hpos : (0 : ℚ) < p.currentAge + (m : ℚ) / 12 := by
        have h1 : (1 : ℚ) ≤ (m : ℚ) := by exact_mod_cast hb
        linarith
      have ihs : (simLoop pw p k).dep = some (p.currentAge + (m : ℚ) / 12) := by
        simp [ih, hk]
      rw [firstDepMonth_succ_some pw p k m hk]
      rw [if_neg, ihs]
      · rfl
      rintro ⟨-, hc | hc⟩
      · rw [ihs] at hc
        cases hc
      · rw [ihs] at hc
        exact absurd (Option.some.inj hc) (ne_of_gt hpos)

theorem dep_persist (pw : ℚ → ℚ) (p : SimParams) (n : ℕ) (a : ℚ)
    (h : (simLoop pw p n).dep = some a) (ha : a ≠ 0) (k : ℕ) :
    (simLoop pw p (n + k)).dep = some a := by
  induction k with
  | zero => exact h
  | succ j ih =>
    rw [show n + (j + 1) = (n + j) + 1 from rfl, simLoop_succ]
    simp only [simStep]
    rw [if_neg]
    · exact ih
    · rintro ⟨-, hc | hc⟩ <;> rw [ih] at hc
      · cases hc
      · exact ha (Option.some.inj hc)

theorem bisect_lo (pw : ℚ → ℚ) (p : SimParams) (le : ℚ) (n : ℕ) (lh : ℚ × ℚ)
    (h : lasts pw p le lh.1 = true) : lasts pw p le (bisect pw p le n lh).1 = true := by
  induction n generalizing lh with
  | zero => exact h
  | succ k ih =>
    simp only [bisect]
    split
    · next hm => exact ih _ hm
    · next hm => exact ih _ h

theorem bisect_hi (pw : ℚ → ℚ) (p : SimParams) (le : ℚ) (n : ℕ) (lh : ℚ × ℚ)
    (h : lasts pw p le lh.2 = false) : lasts pw p le (bisect pw p le n lh).2 = false := by
  induction n generalizing lh with
  | zero => exact h
  | succ k ih =>
    simp only [bisect]
    split
    · next hm => exact ih _ h
    · next hm => exact ih _ (by simpa using hm)

theorem bisect_gap (pw : ℚ → ℚ) (p : SimParams) (le : ℚ) (n : ℕ) (lh : ℚ × ℚ) :
    (bisect pw p le n lh).2 - (bisect pw p le n lh).1 = (lh.2 - lh.1) / 2 ^ n := by
  induction n generalizing lh with
  | zero => simp [bisect]
  | succ k ih =>
    simp only [bisect]
    split
    · rw [ih]
      ring
    · rw [ih]
      ring

theorem expSearch_succ (pw : ℚ → ℚ) (p : SimParams) (le : ℚ) (f : ℕ) (hi : ℚ) :
    expSearch pw p le (f + 1) hi =
      if lasts pw p le hi = true ∧ hi < 50000000 then expSearch pw p le f (hi * 2) else hi :=
  rfl

theorem expSearch_cap (pw : ℚ → ℚ) (p : SimParams) (le : ℚ)
    (h : ∀ k, k < 9 → lasts pw p le (100000 * 2 ^ k) = true) :
    expSearch pw p le 64 100000 = 51200000 := by
  have h0 : lasts pw p le 100000 = true := by have := h 0 (by norm_num); norm_num at this; exact this
  have h1 : lasts pw p le 200000 = true := by have := h 1 (by norm_num); norm_num at this; exact this
  have h2 : lasts pw p le 400000 = true := by have := h 2 (by norm_num); norm_num at this; exact this
  have h3 : lasts pw p le 800000 = true := by have := h 3 (by norm_num); norm_num at this; exact this
  have h4 : lasts pw p le 1600000 = true := by have := h 4 (by norm_num); norm_num at this; exact this
  have h5 : lasts pw p le 3200000 = true := by have := h 5 (by norm_num); norm_num at this; exact this
  have h6 : lasts pw p le 6400000 = true := by have := h 6 (by norm_num); norm_num at this; exact this
  have h7 : lasts pw p le 12800000 = true := by have := h 7 (by norm_num); norm_num at this; exact this
  have h8 : lasts pw p le 25600000 = true := by have := h 8 (by norm_num); norm_num at this; exact this
  rw [show (64 : ℕ) = 63 + 1 from rfl, expSearch_succ, if_pos ⟨h0, by norm_num⟩,
    show (100000 : ℚ) * 2 = 200000 from by norm_num,
    show (63 : ℕ) = 62 + 1 from rfl, expSearch_succ, if_pos ⟨h1, by norm_num⟩,
    show (200000 : ℚ) * 2 = 400000 from by norm_num,
    show (62 : ℕ) = 61 + 1 from rfl, expSearch_succ, if_pos ⟨h2, by norm_num⟩,
    show (400000 : ℚ) * 2 = 800000 from by norm_num,
    show (61 : ℕ) = 60 + 1 from rfl, expSearch_succ, if_pos ⟨h3, by norm_num⟩,
    show (800000 : ℚ) * 2 = 1600000 from by norm_num,
    show (60 : ℕ) = 59 + 1 from rfl, expSearch_succ, if_pos ⟨h4, by norm_num⟩,
    show (1600000 : ℚ) * 2 = 3200000 from by norm_num,
    show (59 : ℕ) = 58 + 1 from rfl, expSearch_succ, if_pos ⟨h5, by norm_num⟩,
    show (3200000 : ℚ) * 2 = 6400000 from by norm_num,
    show (58 : ℕ) = 57 + 1 from rfl, expSearch_succ, if_pos ⟨h6, by norm_num⟩,
    show (6400000 : ℚ) * 2 = 12800000 from by norm_num,
    show (57 : ℕ) = 56 + 1 from rfl, expSearch_succ, if_pos ⟨h7, by norm_num⟩,
    show (12800000 : ℚ) * 2 = 25600000 from by norm_num,
    show (56 : ℕ) = 55 + 1 from rfl, expSearch_succ, if_pos ⟨h8, by norm_num⟩,
    show (25600000 : ℚ) * 2 = 51200000 from by norm_num,
    show (55 : ℕ) = 54 + 1 from rfl, expSearch_succ,
    if_neg (fun hc => absurd hc.2 (by norm_num))]

theorem solver_zero_path (pw : ℚ → ℚ) (p : SimParams) (le : ℚ)
    (h : zeroInfeasible pw p le = true) : findSustainableSpend pw p le = 0 := by
  simp [findSustainableSpend, h]

theorem solver_bisect_path (pw : ℚ → ℚ) (p : SimParams) (le : ℚ)
    (h0 : zeroInfeasible pw p le = false)
    (h1 : expSearch pw p le 64 100000 < 50000000) :
    findSustainableSpend pw p le =
      ((jround (bisect pw p le 34 (0, expSearch pw p le 64 100000)).1 : ℤ) : ℚ) := by
  simp only [findSustainableSpend, h0, Bool.false_eq_true, if_false]
  rw [if_neg (not_le.mpr h1)]

theorem endReal_last (pw : ℚ → ℚ) (p : SimParams) :
    ∃ r, (simulate pw p).rows.getLast? = some r ∧ (simulate pw p).endReal = r.real := by
  rcases hl : (simLoop pw p (months p)).rows.getLast? with - | r
  · exact absurd (List.getLast?_eq_none_iff.mp hl) (rows_ne_nil pw p (months p))
  · exact ⟨r, hl, by simp [simulate, hl]⟩

theorem endReal_div (pw : ℚ → ℚ) (p : SimParams) (h : months p % 12 = 0) :
    (simulate pw p).endReal = (simulate pw p).endNom / (1 + mInfl pw p) ^ months p := by
  obtain ⟨k, hk⟩ : ∃ k, months p = k + 1 :=
    ⟨months p - 1, by have := months_pos p; omega⟩
  have hconcat := simLoop_rows_concat pw p k (by rw [← hk]; exact h)
  simp only [simulate, hk]
  rw [hconcat, List.getLast?_concat]

/-- C1 (amended): when the zero-spend early exit is not taken and every
doubling candidate `100000 * 2^k` for `k < 9` is feasible, the doubling loop
crosses the `5*10^7` cap and `findSustainableSpend` returns
`100000 * 2^9 = 51200000` — a value strictly above the stated ceiling —
irrespective of whether the `lasts` predicate holds at `51200000` itself. -/
theorem C1_cap_amended (pw : ℚ → ℚ) (p : SimParams) (le : ℚ)
    (h0 : zeroInfeasible pw p le = false)
    (h1 : ∀ k, k < 9 → lasts pw p le (100000 * 2 ^ k) = true) :
    findSustainableSpend pw p le = 51200000 := by
  have hcap := expSearch_cap pw p le h1
  simp only [findSustainableSpend, h0, Bool.false_eq_true, if_false, hcap]
  rw [if_pos (by norm_num)]

/-- C1 witness: a concrete scenario feasible at every doubling candidate
below the cap, where the solver returns 51200000. -/
theorem C1_witness : findSustainableSpend pwId pA 61 = 51200000 :=
  C1_cap_amended pwId pA 61 (by decide) (by decide)

/-- C1 counterexample: at this concrete input the solver returns 51200000,
which exceeds the claimed ceiling `5*10^7`, and it does so even though the
final doubled candidate fails the `lasts` predicate — refuting both "the
value it returns never exceeds 5*10^7" and "a value at the ceiling is
returned only in the still-feasible case". -/
theorem C1_counterexample :
    findSustainableSpend pwId pA 61 = 51200000 ∧
      (50000000 : ℚ) < findSustainableSpend pwId pA 61 ∧
      lasts pwId pA 61 51200000 = false := by
  decide

/-- C2 (amended): the solver returns 0 whenever the zero-spend projection's
floored depletion age is truthy (nonzero) and at most `lifeExpectancy`; when
that exit is not taken and the doubling search stays below the cap, it
returns the half-up rounding of the final bisection lower bound `lo`, and
`lo` itself satisfies `lasts` whenever `lasts 0` holds — the rounded return
value, however, is not guaranteed to satisfy `lasts`. -/
theorem C2_amended (pw : ℚ → ℚ) (p : SimParams) (le : ℚ) :
    (zeroInfeasible pw p le = true → findSustainableSpend pw p le = 0) ∧
      (zeroInfeasible pw p le = false →
        expSearch pw p le 64 100000 < 50000000 →
        lasts pw p le 0 = true →
        lasts pw p le (bisect pw p le 34 (0, expSearch pw p le 64 100000)).1 = true ∧
          findSustainableSpend pw p le =
            ((jround (bisect pw p le 34 (0, expSearch pw p le 64 100000)).1 : ℤ) : ℚ)) := by
  refine ⟨solver_zero_path pw p le, fun h0 h1 hl0 =>
    ⟨?_, solver_bisect_path pw p le h0 h1⟩⟩
  exact bisect_lo pw p le 34 (0, expSearch pw p le 64 100000) hl0

/-- C2 witness: the zero-infeasible branch returns 0 at one concrete input,
and at another the bisection branch returns the rounded feasible lower
bound. -/
theorem C2_witness :
    findSustainableSpend pwId pW2a 61 = 0 ∧
      (lasts pwId pW2b 61
          (bisect pwId pW2b 61 34 (0, expSearch pwId pW2b 61 64 100000)).1 = true ∧
        findSustainableSpend pwId pW2b 61 =
          ((jround (bisect pwId pW2b 61 34 (0, expSearch pwId pW2b 61 64 100000)).1 : ℤ) : ℚ)) :=
  ⟨(C2_amended pwId pW2a 61).1 (by decide),
    (C2_amended pwId pW2b 61).2 (by decide) (by decide) (by decide)⟩

/-- C2 counterexample: at this concrete input the zero-spend projection never
depletes (so the scenario is not the infeasible edge case), yet the solver
returns 50004, a value for which the feasibility predicate `lasts` is false —
refuting "in every other case it returns a value v for which lasts(v)
holds". -/
theorem C2_counterexample :
    (simulate pwId (setSpend pB 0)).depletedAgeExact = none ∧
      findSustainableSpend pwId pB 61 = 50004 ∧
      lasts pwId pB 61 50004 = false := by
  decide

/-- C3 (amended): after bracketing, the solver bisects between `lo = 0` and
`hi` for exactly 34 iterations — halving the bracket each time, so the final
bracket has width `hi / 2^34` — keeping `hi` infeasible whenever it started
infeasible and keeping `lo` feasible whenever `lasts 0` holds, and it returns
the half-up rounding (`Math.round`), not the floor, of the final lower
bound. -/
theorem C3_amended (pw : ℚ → ℚ) (p : SimParams) (le : ℚ)
    (h0 : zeroInfeasible pw p le = false)
    (h1 : expSearch pw p le 64 100000 < 50000000) :
    (bisect pw p le 34 (0, expSearch pw p le 64 100000)).2 -
        (bisect pw p le 34 (0, expSearch pw p le 64 100000)).1 =
      expSearch pw p le 64 100000 / 2 ^ 34 ∧
      (lasts pw p le 0 = true →
        lasts pw p le (bisect pw p le 34 (0, expSearch pw p le 64 100000)).1 = true) ∧
      (lasts pw p le (expSearch pw p le 64 100000) = false →
        lasts pw p le (bisect pw p le 34 (0, expSearch pw p le 64 100000)).2 = false) ∧
      findSustainableSpend pw p le =
        ((jround (bisect pw p le 34 (0, expSearch pw p le 64 100000)).1 : ℤ) : ℚ) := by
  refine ⟨?_, fun h => bisect_lo pw p le 34 _ h, fun h => bisect_hi pw p le 34 _ h,
    solver_bisect_path pw p le h0 h1⟩
  simpa using bisect_gap pw p le 34 (0, expSearch pw p le 64 100000)

/-- C3 witness: a concrete bisection-path instance exhibiting the bracket
width, the feasibility invariants, and the rounded return value. -/
theorem C3_witness :
    (bisect pwId pW3 61 34 (0, expSearch pwId pW3 61 64 100000)).2 -
        (bisect pwId pW3 61 34 (0, expSearch pwId pW3 61 64 100000)).1 =
      expSearch pwId pW3 61 64 100000 / 2 ^ 34 ∧
      lasts pwId pW3 61 (bisect pwId pW3 61 34 (0, expSearch pwId pW3 61 64 100000)).1 = true ∧
      lasts pwId pW3 61 (bisect pwId pW3 61 34 (0, expSearch pwId pW3 61 64 100000)).2 = false ∧
      findSustainableSpend pwId pW3 61 =
        ((jround (bisect pwId pW3 61 34 (0, expSearch pwId pW3 61 64 100000)).1 : ℤ) : ℚ) := by
  obtain ⟨g, hlo, hhi, hret⟩ := C3_amended pwId pW3 61 (by decide) (by decide)
  exact ⟨g, hlo (by decide), hhi (by decide), hret⟩

/-- C3 counterexample: at this concrete input the solver returns 100008 while
the floor of the final bisection lower bound is 100007 — the return value is
`Math.round(lo)`, not the claimed floor. -/
theorem C3_counterexample :
    findSustainableSpend pwId pC 61 = 100008 ∧
      ⌊(bisect pwId pC 61 34 (0, expSearch pwId pC 61 64 100000)).1⌋ = 100007 ∧
      findSustainableSpend pwId pC 61 ≠
        ((⌊(bisect pwId pC 61 34 (0, expSearch pwId pC 61 64 100000)).1⌋ : ℤ) : ℚ) := by
  decide

/-- C4 counterexample: with a single simulated month no annual row is
appended, yet `endReal` is the initial balance 100, not the final nominal
balance 110 — the `?? bal` fallback never fires because `rows` always holds
the initial point. -/
theorem C4_counterexample :
    months p4 = 1 ∧ (simulate pwId p4).endReal = 100 ∧ (simulate pwId p4).endNom = 110 := by
  decide

/-- C4 (amended): `endReal` always equals the real balance of the last
element of `rows`; since `rows` always contains the initial point, when
fewer than 12 months are simulated no annual row is appended and `endReal`
is the clamped starting balance `max 0 startAssets` — the final-nominal
fallback is unreachable, so `endReal` is not the final nominal balance in
the no-rows-appended case. -/
theorem C4_amended (pw : ℚ → ℚ) (p : SimParams) :
    (∃ r, (simulate pw p).rows.getLast? = some r ∧ (simulate pw p).endReal = r.real) ∧
      (months p < 12 →
        (simulate pw p).rows = [initRow p] ∧
          (simulate pw p).endReal = max 0 p.startAssets) := by
  refine ⟨endReal_last pw p, fun h => ?_⟩
  have hr : (simLoop pw p (months p)).rows = [initRow p] := rows_small pw p (months p) h
  constructor
  · simpa [simulate] using hr
  · simp [simulate, hr, initRow]

/-- C4 witness: concrete instantiation of the amended statement at a
one-month scenario. -/
theorem C4_witness :
    (∃ r, (simulate pwId p4).rows.getLast? = some r ∧ (simulate pwId p4).endReal = r.real) ∧
      (simulate pwId p4).rows = [initRow p4] ∧
        (simulate pwId p4).endReal = max 0 p4.startAssets :=
  ⟨(C4_amended pwId p4).1, (C4_amended pwId p4).2 (by decide)⟩

/-- C5 counterexample: a zero-inflation scenario whose month count is not a
multiple of 12, where `endReal` and `endNominal` differ by 20, far beyond the
claimed `1e-6` tolerance. -/
theorem C5_counterexample :
    p5.inflationAnnual = 0 ∧ months p5 % 12 ≠ 0 ∧
      1 / 1000000 < |(simulate pwId p5).endReal - (simulate pwId p5).endNom| := by
  decide

/-- C5 (amended): when `inflationAnnual = 0` (with the twelfth root mapping 1
to 1, as `Math.pow` does exactly) and the month count is a multiple of 12,
`endReal` equals `endNominal` exactly. -/
theorem C5_amended (pw : ℚ → ℚ) (p : SimParams) (h1 : p.inflationAnnual = 0)
    (h2 : pw 1 = 1) (h3 : months p % 12 = 0) :
    (simulate pw p).endReal = (simulate pw p).endNom := by
  have hm : mInfl pw p = 0 := by simp [mInfl, h1, h2]
  rw [endReal_div pw p h3, hm]
  norm_num

/-- C5 witness: concrete twelve-month zero-inflation instantiation. -/
theorem C5_witness : (simulate pwId pW5).endReal = (simulate pwId pW5).endNom :=
  C5_amended pwId pW5 (by decide) (by decide) (by decide)

/-- C6 counterexample: a thirteen-month scenario with positive inflation in
which the balance is positive at the month-12 row but depleted at month 13,
so the recorded `endReal` strictly exceeds `endNominal`. -/
theorem C6_counterexample :
    0 < p6.inflationAnnual ∧ (simulate pwId p6).endNom < (simulate pwId p6).endReal := by
  decide

/-- C6 (amended): whenever `inflationAnnual > 0` (with the twelfth root at
least 1 on the inflation base, as `Math.pow` is) and the month count is a
multiple of 12, `endReal ≤ endNominal`. -/
theorem C6_amended (pw : ℚ → ℚ) (p : SimParams) (h1 : 0 < p.inflationAnnual)
    (h2 : 1 ≤ pw (1 + p.inflationAnnual)) (h3 : months p % 12 = 0) :
    (simulate pw p).endReal ≤ (simulate pw p).endNom := by
  rw [endReal_div pw p h3]
  have hb : 0 ≤ (simulate pw p).endNom := balAfter_nonneg pw p (months p)
  exact div_le_self hb (by rw [one_add_mInfl]; exact one_le_pow₀ h2)

/-- C6 witness: concrete twelve-month positive-inflation instantiation. -/
theorem C6_witness : (simulate pwId pW6).endReal ≤ (simulate pwId pW6).endNom :=
  C6_amended pwId pW6 (by decide) (by decide) (by decide)

/-- C7: invariants of the projection — every recorded row (nominal and real,
including the initial point) is nonnegative, the final nominal and real
balances are nonnegative, the clamped running balance is nonnegative after
every month so the simulation continues without the balance ever going
negative, and the recorded exact depletion age is precisely the age of the
first month whose pre-clamp balance is `≤ 0` (`firstDepMonth`), so depletion
is recorded only once, at the first crossing.  Hypotheses: nonnegative
current age (the data model's constraint) and a positive twelfth root at the
inflation base (true of `Math.pow`). -/
theorem C7_invariants (pw : ℚ → ℚ) (p : SimParams) (h1 : 0 ≤ p.currentAge)
    (h2 : 0 < pw (1 + p.inflationAnnual)) :
    (∀ r ∈ (simulate pw p).rows, 0 ≤ r.nominal ∧ 0 ≤ r.real) ∧
      0 ≤ (simulate pw p).endNom ∧ 0 ≤ (simulate pw p).endReal ∧
      (∀ n, 0 ≤ balAfter pw p n) ∧
      (simulate pw p).depletedAgeExact =
        (firstDepMonth pw p (months p)).map (fun m => p.currentAge + (m : ℚ) / 12) := by
  have hrows := rows_nonneg pw p h2 (months p)
  refine ⟨hrows, balAfter_nonneg pw p (months p), ?_, balAfter_nonneg pw p,
    dep_eq_firstDep pw p h1 (months p)⟩
  obtain ⟨r, hr, he⟩ := endReal_last pw p
  rw [he]
  exact (hrows r (List.mem_of_getLast?_eq_some hr)).2

/-- C7 witness: concrete instantiation of the invariants. -/
theorem C7_witness :
    (∀ r ∈ (simulate pwId pW7).rows, 0 ≤ r.nominal ∧ 0 ≤ r.real) ∧
      0 ≤ (simulate pwId pW7).endNom ∧ 0 ≤ (simulate pwId pW7).endReal ∧
      (∀ n, 0 ≤ balAfter pwId pW7 n) ∧
      (simulate pwId pW7).depletedAgeExact =
        (firstDepMonth pwId pW7 (months pW7)).map (fun m => pW7.currentAge + (m : ℚ) / 12) :=
  C7_invariants pwId pW7 (by decide) (by decide)

/-- C8: the derived net rates agree with the specification's formulas
(`preNet = max(-0.99, preGross - feePre)`, nominal post-retirement rate
`(1+real)(1+inflation) - 1` before subtracting `feePost` with the same
floor), and — whenever the twelfth root is exact at the relevant bases — the
monthly conversions are geometric, `(1+monthly)^12 = 1+annual`, and the
pre-retirement monthly rate differs from the simple `annual/12` whenever the
net annual rate is nonzero. -/
theorem C8_rates (pw : ℚ → ℚ) (p : SimParams)
    (hpre : pw (1 + preNet p) ^ 12 = 1 + preNet p)
    (hpost : pw (1 + postNet p) ^ 12 = 1 + postNet p)
    (hinfl : pw (1 + p.inflationAnnual) ^ 12 = 1 + p.inflationAnnual) :
    preNet p = spec_preNet p ∧ postNominal p = spec_postNominal p ∧
      postNet p = spec_postNet p ∧
      (1 + mPre pw p) ^ 12 = 1 + preNet p ∧
      (1 + mPost pw p) ^ 12 = 1 + postNet p ∧
      (1 + mInfl pw p) ^ 12 = 1 + p.inflationAnnual ∧
      (preNet p ≠ 0 → mPre pw p ≠ preNet p / 12) := by
  refine ⟨rfl, rfl, rfl, ?_, ?_, ?_, ?_⟩
  · simpa [mPre] using hpre
  · simpa [mPost] using hpost
  · simpa [mInfl] using hinfl
  · intro hne heq
    set t := preNet p / 12 with ht
    have h12 : (1 + t) ^ 12 = 1 + preNet p := by
      rw [← heq]
      simpa [mPre] using hpre
    have htne : t ≠ 0 := div_ne_zero hne (by norm_num)
    have hu : (-2 : ℚ) ≤ 2 * t + t ^ 2 := by nlinarith [sq_nonneg (t + 1)]
    have hb := one_add_mul_le_pow hu 6
    have hexp : (1 + (2 * t + t ^ 2)) ^ 6 = (1 + t) ^ 12 := by ring
    have htsq : 0 < t ^ 2 := pow_two_pos_of_ne_zero htne
    have h12t : preNet p = 12 * t := by rw [ht]; ring
    rw [hexp, h12, h12t] at hb
    push_cast at hb
    linarith

/-- C8 witness: with the twelfth root taking 4096 to 2, a scenario whose net
pre-retirement rate is 4095 has monthly rate 1 (`2^12 = 4096` exactly), and
`1 ≠ 4095/12`. -/
theorem C8_witness :
    (1 + mPre pwC8 p8) ^ 12 = 1 + preNet p8 ∧ mPre pwC8 p8 ≠ preNet p8 / 12 := by
  have h := C8_rates pwC8 p8 (by decide) (by decide) (by decide)
  exact ⟨h.2.2.2.1, h.2.2.2.2.2.2 (by decide)⟩

/-- C9: the withdrawal equals the specification's formula — applied only in
months strictly beyond `monthsToRetirement`, equal to `annualSpendToday/12`
inflated by compounding monthly inflation over the months elapsed since
retirement began — it vanishes in pre-retirement months, and its exponent
counts months since retirement, strictly fewer than the months since
simulation start whenever retirement starts after month 0. -/
theorem C9_spendTiming (pw : ℚ → ℚ) (p : SimParams) (m : ℕ) :
    spendAt pw p m = spec_spendAt pw p m ∧
      (m ≤ toRet p → spendAt pw p m = 0) ∧
      (0 < toRet p → toRet p < m → m - toRet p < m) := by
  refine ⟨?_, fun hm => ?_, fun hp hm => by omega⟩
  · unfold spendAt spec_spendAt
    by_cases hm : toRet p < m
    · rw [if_pos hm, if_pos (by omega : 0 < m - toRet p)]
    · rw [if_neg hm, if_neg (by omega : ¬ 0 < m - toRet p)]
  · unfold spendAt
    rw [if_neg (by omega : ¬ 0 < m - toRet p)]

/-- C9 witness: concrete instantiation one month after a 120-month
retirement point and at a pre-retirement month. -/
theorem C9_witness :
    spendAt pwId pW9 121 = spec_spendAt pwId pW9 121 ∧ spendAt pwId pW9 5 = 0 :=
  ⟨(C9_spendTiming pwId pW9 121).1, (C9_spendTiming pwId pW9 5).2.1 (by decide)⟩

/-- C10 counterexample: at current age 0 with zero starting assets and no
month-one contribution, the zero-spend projection does record depletion at
age `0 + 1/12` with no withdrawal ever occurring, but its floored depletion
age is `0` — falsy in `zero.depletedAge && ...` — so the solver's zero-spend
check does not classify the scenario as infeasible, refuting the claim's
universally stated consequence. -/
theorem C10_counterexample :
    p10.startAssets = 0 ∧ p10.monthlySave = 0 ∧
      (simulate pwId (setSpend p10 0)).depletedAgeExact = some (p10.currentAge + 1 / 12) ∧
      (simulate pwId (setSpend p10 0)).depletedAge = some 0 ∧
      zeroInfeasible pwId p10 90 = false := by
  decide

/-- C10 (amended): with zero starting assets and no month-one contribution
(save = 0 or the delay suppresses it), the zero-spend projection's clamped
balance is nonpositive after month one and depletion is recorded at age
`currentAge + 1/12` even though no withdrawal ever occurred; the solver's
zero-spend check then classifies the scenario as infeasible and returns 0
provided that floored depletion age is truthy and within life expectancy,
i.e. when `currentAge ≥ 11/12` (so the floor is nonzero) and
`currentAge + 1/12 ≤ lifeExpectancy` — for smaller current ages the floored
age `0` is falsy and the check does not fire. -/
theorem C10_zeroStart (pw : ℚ → ℚ) (p : SimParams) (le : ℚ)
    (h1 : p.startAssets = 0) (h2 : p.monthlySave = 0 ∨ 1 ≤ dly p)
    (h3 : 11 / 12 ≤ p.currentAge) (h4 : p.currentAge + 1 / 12 ≤ le) :
    balAfter pw (setSpend p 0) 1 ≤ 0 ∧
      (simulate pw (setSpend p 0)).depletedAgeExact = some (p.currentAge + 1 / 12) ∧
      findSustainableSpend pw p le = 0 := by
  have hb0 : (simLoop pw (setSpend p 0) 0).bal = 0 := by
    show max 0 (setSpend p 0).startAssets = 0
    simp [setSpend, h1]
  have hc1 : contribAt (setSpend p 0) 1 = 0 := by
    rcases h2 with h2 | h2
    · unfold contribAt
      split
      · exact h2
      · rfl
    · unfold contribAt
      rw [if_neg]
      rintro ⟨-, hd⟩
      have he : dly (setSpend p 0) = dly p := rfl
      omega
  have hsp1 : spendAt pw (setSpend p 0) 1 = 0 := by
    unfold spendAt
    split
    · show (setSpend p 0).annualSpendToday / 12 * (1 + mInfl pw (setSpend p 0)) ^ (1 - toRet (setSpend p 0)) = 0
      show (0 : ℚ) / 12 * (1 + mInfl pw (setSpend p 0)) ^ (1 - toRet (setSpend p 0)) = 0
      simp
    · rfl
  have hraw1 : stepRaw pw (setSpend p 0) ((simLoop pw (setSpend p 0) 0).bal) 1 =
      -(mFix (setSpend p 0)) := by
    rw [stepRaw, hb0, hc1, hsp1]
    ring
  have hfix : 0 ≤ mFix (setSpend p 0) :=
    div_nonneg (le_max_left 0 _) (by norm_num)
  have hraw1n : stepRaw pw (setSpend p 0) ((simLoop pw (setSpend p 0) 0).bal) 1 ≤ 0 := by
    rw [hraw1]
    linarith
  have hbal1 : balAfter pw (setSpend p 0) 1 ≤ 0 := by
    show (simStep pw (setSpend p 0) (simLoop pw (setSpend p 0) 0) 1).bal ≤ 0
    simp only [simStep]
    split
    · exact le_rfl
    · exact hraw1n
  have hdepa : (simLoop pw (setSpend p 0) 1).dep = some (p.currentAge + 1 / 12) := by
    show (simStep pw (setSpend p 0) (simLoop pw (setSpend p 0) 0) 1).dep = _
    simp only [simStep]
    rw [if_pos ⟨hraw1n, Or.inl rfl⟩]
    norm_num [setSpend]
  have hane : p.currentAge + 1 / 12 ≠ 0 := ne_of_gt (by linarith)
  obtain ⟨k, hk⟩ : ∃ k, months (setSpend p 0) = 1 + k :=
    ⟨months (setSpend p 0) - 1, by have := months_pos (setSpend p 0); omega⟩
  have hdepm : (simLoop pw (setSpend p 0) (months (setSpend p 0))).dep =
      some (p.currentAge + 1 / 12) := by
    rw [hk]
    exact dep_persist pw (setSpend p 0) 1 _ hdepa hane k
  have hexact : (simulate pw (setSpend p 0)).depletedAgeExact =
      some (p.currentAge + 1 / 12) := by
    simp only [simulate]
    exact hdepm
  have hda : (simulate pw (setSpend p 0)).depletedAge =
      some ⌊p.currentAge + 1 / 12⌋ := by
    simp only [simulate, hdepm]
    rw [if_neg hane]
  have hfloor1 : (1 : ℤ) ≤ ⌊p.currentAge + 1 / 12⌋ := by
    apply Int.le_floor.mpr
    push_cast
    linarith
  have hfloorle : ((⌊p.currentAge + 1 / 12⌋ : ℤ) : ℚ) ≤ le :=
    le_trans (Int.floor_le _) h4
  have hzero : zeroInfeasible pw p le = true := by
    simp only [zeroInfeasible, hda, decide_eq_true_eq]
    exact ⟨by omega, hfloorle⟩
  exact ⟨hbal1, hexact, solver_zero_path pw p le hzero⟩

/-- C10 witness: concrete zero-asset instantiation where the solver returns
0 from a depletion recorded in month one. -/
theorem C10_witness :
    balAfter pwId (setSpend pW10 0) 1 ≤ 0 ∧
      (simulate pwId (setSpend pW10 0)).depletedAgeExact = some (pW10.currentAge + 1 / 12) ∧
      findSustainableSpend pwId pW10 90 = 0 :=
  C10_zeroStart pwId pW10 90 (by decide) (Or.inl (by decide)) (by decide) (by decide)

end UT
